import Mathlib

/-!
Verification development for the synthetic manufacturing-telemetry generator
(src/src/entities/asset.py).  The Python code is shallowly embedded: every
pseudo-random draw (random.uniform, random.choice) is passed in explicitly as
a parameter, with the support of each uniform draw expressed as an interval
hypothesis where a theorem needs it.  Python floats are modelled as rationals.
-/

/-- Rounding to 2 decimal places, modelling Python round(x, 2).  Mathlib's
round is round-half-up while Python rounds half to even; no property proved
here depends on the direction of exact ties. -/
def round2 (x : ℚ) : ℚ := (round (x * 100) : ℚ) / 100

/-- The four metric names used as anomaly-set members by create_random_event
(the Python code uses the strings "vibration", "temperature", "humidity",
"speed"). -/
inductive MetricName
  | vibration
  | temperature
  | humidity
  | speed
deriving DecidableEq, Repr

/-- Metric range definition, from the AssetMetric dataclass.  The dataclass
performs no validation of its fields. -/
structure AssetMetric where
  Min : ℚ
  Max : ℚ
  Variation : ℚ
  DefectFactor : ℚ
deriving DecidableEq, Repr

/-- The value computed in the anomaly branch of calculate_random_value:
random.uniform(Variation*0.5, Variation*1.5) is modelled by its outcome e0,
multiplied by variation_multiplier; random.choice([True, False]) is the
outcome hi.  hi = true gives Max + excursion, hi = false gives
Min - excursion. -/
def AssetMetric.anomalousValue (met : AssetMetric) (e0 vm : ℚ) (hi : Bool) : ℚ :=
  if hi then met.Max + e0 * vm else met.Min - e0 * vm

/-- AssetMetric.calculate_random_value.  u is the outcome of
random.uniform(Min, Max); e0 and hi are the anomaly-branch draws.  The final
statement of the Python function is round(max(0, value), 2). -/
def AssetMetric.calculate_random_value
    (met : AssetMetric) (anomaly : Bool) (vm u e0 : ℚ) (hi : Bool) : ℚ :=
  round2 (max 0 (if anomaly then met.anomalousValue e0 vm hi else u))

/-- AssetMetric.calc_defect_factor: max(0, (value - Max)/DefectFactor,
(Min - value)/DefectFactor). -/
def AssetMetric.calc_defect_factor (met : AssetMetric) (value : ℚ) : ℚ :=
  max 0 (max ((value - met.Max) / met.DefectFactor)
            ((met.Min - value) / met.DefectFactor))

/-- Signed distance of a value from the interval [Min, Max]; nonpositive
inside the interval, positive outside.  Used to state the monotonicity part
of the deviation-factor claim. -/
def AssetMetric.rangeDist (met : AssetMetric) (value : ℚ) : ℚ :=
  max (value - met.Max) (met.Min - value)

/-- Asset type with its four metrics, from the AssetType dataclass. -/
structure AssetType where
  Name : String
  Vibration : AssetMetric
  Temperature : AssetMetric
  Humidity : AssetMetric
  Speed : AssetMetric
deriving DecidableEq, Repr

/-- AssetType.calculate_defect_probability.  random.uniform(0.8, 1.2) is
modelled by its outcome jitter.  The Python code computes
round((vf*0.4 + tf*0.3 + sf*0.3) * jitter, 2) and returns
min(defect_probability, 1.0); humidity is not an input. -/
def AssetType.calculate_defect_probability
    (ty : AssetType) (vibration temperature speed jitter : ℚ) : ℚ :=
  min (round2 ((ty.Vibration.calc_defect_factor vibration * 0.4
      + ty.Temperature.calc_defect_factor temperature * 0.3
      + ty.Speed.calc_defect_factor speed * 0.3) * jitter)) 1

/-- The anomaly-metric selection of create_random_event: four independent
coin flips (pv, pt, ph, ps) append the metric names in source order; if the
list is empty, the fallback metric fb (random.choice over the four names) is
forced in. -/
def selectAnomalyMetrics (pv pt ph ps : Bool) (fb : MetricName) : List MetricName :=
  let ms := (if pv then [MetricName.vibration] else [])
    ++ (if pt then [MetricName.temperature] else [])
    ++ (if ph then [MetricName.humidity] else [])
    ++ (if ps then [MetricName.speed] else [])
  if ms.isEmpty then [fb] else ms

/-- All pseudo-random draws consumed by one create_random_event call on the
shared random source, in the order the Python code makes them: the four
selection coins and the fallback choice, then per metric the uniform(Min,Max)
draw, the uniform(Variation*0.5, Variation*1.5) draw and the sign coin, and
finally the uniform(0.8, 1.2) jitter of calculate_defect_probability. -/
structure EventDraws where
  pickVibration : Bool
  pickTemperature : Bool
  pickHumidity : Bool
  pickSpeed : Bool
  fallback : MetricName
  uniformVibration : ℚ
  uniformTemperature : ℚ
  uniformHumidity : ℚ
  uniformSpeed : ℚ
  excursionVibration : ℚ
  excursionTemperature : ℚ
  excursionHumidity : ℚ
  excursionSpeed : ℚ
  hiVibration : Bool
  hiTemperature : Bool
  hiHumidity : Bool
  hiSpeed : Bool
  jitter : ℚ
deriving DecidableEq, Repr

/-- Modelled from the spec: the EventRecord value object (entities/event.py
is not under src/; asset.py imports Event from it).  Fields are exactly the
keyword arguments create_random_event passes to the Event constructor; the
timestamp is kept opaque. -/
structure Event where
  Id : String
  AssetId : String
  ProductId : String
  BatchId : String
  Vibration : ℚ
  Temperature : ℚ
  Humidity : ℚ
  Speed : ℚ
  DefectProbability : ℚ
  Timestamp : String
deriving DecidableEq, Repr

/-- AssetType.create_random_event.  The draws from the shared random source
are passed in d; newId models str(uuid.uuid4()), which in Python reads the
OS entropy pool and is therefore a separate input, not part of the shared
random source's state. -/
def AssetType.create_random_event
    (ty : AssetType) (asset_id product_id batch_id timestamp : String)
    (anomaly : Bool) (vm : ℚ) (d : EventDraws) (newId : String) : Event :=
  let ams := if anomaly then
      selectAnomalyMetrics d.pickVibration d.pickTemperature d.pickHumidity
        d.pickSpeed d.fallback
    else []
  let vibration := ty.Vibration.calculate_random_value
    (anomaly && ams.contains MetricName.vibration) vm
    d.uniformVibration d.excursionVibration d.hiVibration
  let temperature := ty.Temperature.calculate_random_value
    (anomaly && ams.contains MetricName.temperature) vm
    d.uniformTemperature d.excursionTemperature d.hiTemperature
  let humidity := ty.Humidity.calculate_random_value
    (anomaly && ams.contains MetricName.humidity) vm
    d.uniformHumidity d.excursionHumidity d.hiHumidity
  let speed := ty.Speed.calculate_random_value
    (anomaly && ams.contains MetricName.speed) vm
    d.uniformSpeed d.excursionSpeed d.hiSpeed
  let defect_probability :=
    ty.calculate_defect_probability vibration temperature speed d.jitter
  { Id := newId
    AssetId := asset_id
    ProductId := product_id
    BatchId := batch_id
    Vibration := vibration
    Temperature := temperature
    Humidity := humidity
    Speed := speed
    DefectProbability := defect_probability
    Timestamp := timestamp }

/-- The Assembly entry of AssetType.get_types. -/
def assemblyType : AssetType :=
  { Name := "Assembly"
    Vibration := { Min := 0.1, Max := 0.3, Variation := 0.08, DefectFactor := 0.5 }
    Temperature := { Min := 20, Max := 35, Variation := 3, DefectFactor := 12 }
    Humidity := { Min := 30, Max := 70, Variation := 0, DefectFactor := 15 }
    Speed := { Min := 50, Max := 100, Variation := 20, DefectFactor := 20 } }

/-- The Press entry of AssetType.get_types. -/
def pressType : AssetType :=
  { Name := "Press"
    Vibration := { Min := 0.2, Max := 0.8, Variation := 0.08, DefectFactor := 0.5 }
    Temperature := { Min := 25, Max := 45, Variation := 5, DefectFactor := 15 }
    Humidity := { Min := 30, Max := 70, Variation := 0, DefectFactor := 15 }
    Speed := { Min := 20, Max := 60, Variation := 10, DefectFactor := 20 } }

/-- The Conveyor entry of AssetType.get_types. -/
def conveyorType : AssetType :=
  { Name := "Conveyor"
    Vibration := { Min := 0.05, Max := 0.2, Variation := 0.08, DefectFactor := 0.5 }
    Temperature := { Min := 18, Max := 30, Variation := 2, DefectFactor := 10 }
    Humidity := { Min := 30, Max := 70, Variation := 0, DefectFactor := 15 }
    Speed := { Min := 10, Max := 50, Variation := 8, DefectFactor := 20 } }

/-- The Packaging entry of AssetType.get_types. -/
def packagingType : AssetType :=
  { Name := "Packaging"
    Vibration := { Min := 0.1, Max := 0.4, Variation := 0.08, DefectFactor := 0.5 }
    Temperature := { Min := 20, Max := 40, Variation := 3, DefectFactor := 12 }
    Humidity := { Min := 30, Max := 70, Variation := 0, DefectFactor := 15 }
    Speed := { Min := 30, Max := 80, Variation := 15, DefectFactor := 20 } }

/-- AssetType.get_types: the catalog dict, modelled as an association list in
insertion order. -/
def AssetType.get_types : List (String × AssetType) :=
  [("Assembly", assemblyType), ("Press", pressType),
   ("Conveyor", conveyorType), ("Packaging", packagingType)]

/-- Asset.get_type_map: the name-to-type dict, as an association list in
insertion order. -/
def Asset.get_type_map : List (String × String) :=
  [("Robotic Arm", "Assembly"), ("Automated Press", "Press"),
   ("Conveyor Belt", "Conveyor"), ("Packaging Line", "Packaging")]

/-- The invariant the spec's ConfigurationError is supposed to guard:
min less than or equal to max, and nonzero defect sensitivity. -/
def AssetMetric.valid (met : AssetMetric) : Prop :=
  met.Min ≤ met.Max ∧ met.DefectFactor ≠ 0

instance (met : AssetMetric) : Decidable met.valid := by
  unfold AssetMetric.valid
  infer_instance

/-- A metric definition violating the invariant (Min greater than Max): the
dataclass constructor accepts it unchecked. -/
def invalidMetric : AssetMetric :=
  { Min := 1, Max := 0, Variation := 0, DefectFactor := 1 }

/-- All draws of one event lie in the supports of the uniform distributions
the Python code draws them from. -/
def EventDraws.inSupport (d : EventDraws) (ty : AssetType) : Prop :=
  (ty.Vibration.Min ≤ d.uniformVibration ∧ d.uniformVibration ≤ ty.Vibration.Max)
  ∧ (ty.Temperature.Min ≤ d.uniformTemperature ∧ d.uniformTemperature ≤ ty.Temperature.Max)
  ∧ (ty.Humidity.Min ≤ d.uniformHumidity ∧ d.uniformHumidity ≤ ty.Humidity.Max)
  ∧ (ty.Speed.Min ≤ d.uniformSpeed ∧ d.uniformSpeed ≤ ty.Speed.Max)
  ∧ (ty.Vibration.Variation / 2 ≤ d.excursionVibration
      ∧ d.excursionVibration ≤ 3 * ty.Vibration.Variation / 2)
  ∧ (ty.Temperature.Variation / 2 ≤ d.excursionTemperature
      ∧ d.excursionTemperature ≤ 3 * ty.Temperature.Variation / 2)
  ∧ (ty.Humidity.Variation / 2 ≤ d.excursionHumidity
      ∧ d.excursionHumidity ≤ 3 * ty.Humidity.Variation / 2)
  ∧ (ty.Speed.Variation / 2 ≤ d.excursionSpeed
      ∧ d.excursionSpeed ≤ 3 * ty.Speed.Variation / 2)
  ∧ (0.8 ≤ d.jitter ∧ d.jitter ≤ 1.2)

instance (d : EventDraws) (ty : AssetType) : Decidable (d.inSupport ty) := by
  unfold EventDraws.inSupport
  infer_instance

/-- At least one of the four readings of an event is strictly outside the
nominal range of the corresponding metric of ty. -/
def AssetType.eventOutOfRange (ty : AssetType) (ev : Event) : Prop :=
  (ev.Vibration < ty.Vibration.Min ∨ ty.Vibration.Max < ev.Vibration)
  ∨ (ev.Temperature < ty.Temperature.Min ∨ ty.Temperature.Max < ev.Temperature)
  ∨ (ev.Humidity < ty.Humidity.Min ∨ ty.Humidity.Max < ev.Humidity)
  ∨ (ev.Speed < ty.Speed.Min ∨ ty.Speed.Max < ev.Speed)

instance (ty : AssetType) (ev : Event) : Decidable (ty.eventOutOfRange ev) := by
  unfold AssetType.eventOutOfRange
  infer_instance

/-! Basic facts about round2. -/

theorem round2_le_add (x : ℚ) : round2 x ≤ x + 1 / 200 := by
  unfold round2
  have h : ((round (x * 100) : ℤ) : ℚ) ≤ x * 100 + 1 / 2 := by
    rw [round_eq]
    exact_mod_cast Int.floor_le (x * 100 + 1 / 2)
  linarith

theorem sub_le_round2 (x : ℚ) : x - 1 / 200 ≤ round2 x := by
  unfold round2
  have h : x * 100 + 1 / 2 < ((round (x * 100) : ℤ) : ℚ) + 1 := by
    rw [round_eq]
    exact_mod_cast Int.lt_floor_add_one (x * 100 + 1 / 2)
  linarith

theorem round2_mono {x y : ℚ} (h : x ≤ y) : round2 x ≤ round2 y := by
  unfold round2
  have h2 : round (x * 100) ≤ round (y * 100) := by
    rw [round_eq, round_eq]
    exact Int.floor_mono (by linarith)
  have h3 : ((round (x * 100) : ℤ) : ℚ) ≤ ((round (y * 100) : ℤ) : ℚ) :=
    Int.cast_le.mpr h2
  linarith

theorem round2_eq_self {x : ℚ} (k : ℤ) (h : x * 100 = (k : ℚ)) : round2 x = x := by
  unfold round2
  rw [h, round_intCast]
  field_simp
  linarith [h]

theorem round2_nonneg {x : ℚ} (h : 0 ≤ x) : 0 ≤ round2 x := by
  unfold round2
  have h2 : (0 : ℤ) ≤ round (x * 100) := by
    rw [round_eq]
    exact Int.floor_nonneg.mpr (by linarith)
  have h3 : ((0 : ℤ) : ℚ) ≤ ((round (x * 100) : ℤ) : ℚ) := Int.cast_le.mpr h2
  simp at h3
  positivity

/-! Helper lemmas about the defect factor. -/

theorem calc_defect_factor_nonneg (met : AssetMetric) (v : ℚ) :
    0 ≤ met.calc_defect_factor v :=
  le_max_left 0 _

theorem calc_defect_factor_eq_dist (met : AssetMetric) (v : ℚ)
    (hd : 0 < met.DefectFactor) :
    met.calc_defect_factor v = max 0 (met.rangeDist v / met.DefectFactor) := by
  unfold AssetMetric.calc_defect_factor AssetMetric.rangeDist
  rw [max_div_div_right hd.le]

/-- C4: calculate_defect_probability equals
min(1, round2((0.4*vf + 0.3*tf + 0.3*sf) * jitter)) where vf, tf, sf are the
deviation factors of vibration, temperature and speed (humidity is not an
input at all), and for Press at vibration 0.8, temperature 45, speed 60 (all
at the upper bound) all three factors are 0 and the result is 0 for every
jitter value. -/
theorem defect_probability_formula_and_press_zero :
    (∀ (ty : AssetType) (v t s j : ℚ),
      ty.calculate_defect_probability v t s j
        = min 1 (round2 ((0.4 * ty.Vibration.calc_defect_factor v
            + 0.3 * ty.Temperature.calc_defect_factor t
            + 0.3 * ty.Speed.calc_defect_factor s) * j)))
    ∧ (∀ j : ℚ, pressType.calculate_defect_probability 0.8 45 60 j = 0) := by
  constructor
  · intro ty v t s j
    unfold AssetType.calculate_defect_probability
    rw [min_comm]
    congr 2
    ring
  · intro j
    have hv : pressType.Vibration.calc_defect_factor 0.8 = 0 := by
      unfold AssetMetric.calc_defect_factor pressType
      norm_num
    have ht : pressType.Temperature.calc_defect_factor 45 = 0 := by
      unfold AssetMetric.calc_defect_factor pressType
      norm_num
    have hs : pressType.Speed.calc_defect_factor 60 = 0 := by
      unfold AssetMetric.calc_defect_factor pressType
      norm_num
    unfold AssetType.calculate_defect_probability
    rw [hv, ht, hs]
    norm_num [round2, round_eq]

/-- C5: for defect_sensitivity strictly positive, calc_defect_factor is
exactly max(0, (v - Max)/d, (Min - v)/d); it is 0 on [Min, Max], strictly
positive outside, weakly monotone in the signed distance from the range and
strictly monotone once the larger distance is positive.  It is a plain
function of its arguments, hence pure and deterministic. -/
theorem calc_defect_factor_spec (met : AssetMetric) (hd : 0 < met.DefectFactor) :
    (∀ v, met.calc_defect_factor v
        = max 0 (max ((v - met.Max) / met.DefectFactor)
                     ((met.Min - v) / met.DefectFactor)))
    ∧ (∀ v, met.Min ≤ v → v ≤ met.Max → met.calc_defect_factor v = 0)
    ∧ (∀ v, (v < met.Min ∨ met.Max < v) → 0 < met.calc_defect_factor v)
    ∧ (∀ v w, met.rangeDist v ≤ met.rangeDist w →
        met.calc_defect_factor v ≤ met.calc_defect_factor w)
    ∧ (∀ v w, 0 < met.rangeDist w → met.rangeDist v < met.rangeDist w →
        met.calc_defect_factor v < met.calc_defect_factor w) := by
  refine ⟨fun v => rfl, ?_, ?_, ?_, ?_⟩
  · intro v h1 h2
    rw [calc_defect_factor_eq_dist met v hd]
    have hdist : met.rangeDist v / met.DefectFactor ≤ 0 :=
      div_nonpos_of_nonpos_of_nonneg (max_le (by linarith) (by linarith)) hd.le
    exact max_eq_left hdist
  · intro v h
    rw [calc_defect_factor_eq_dist met v hd]
    have hdist : 0 < met.rangeDist v := by
      rcases h with h | h
      · exact lt_max_of_lt_right (by linarith)
      · exact lt_max_of_lt_left (by linarith)
    exact lt_max_of_lt_right (div_pos hdist hd)
  · intro v w h
    rw [calc_defect_factor_eq_dist met v hd, calc_defect_factor_eq_dist met w hd]
    exact max_le_max le_rfl ((div_le_div_right hd).mpr h)
  · intro v w hw h
    rw [calc_defect_factor_eq_dist met v hd, calc_defect_factor_eq_dist met w hd]
    have hwpos : 0 < met.rangeDist w / met.DefectFactor := div_pos hw hd
    have hlt : met.rangeDist v / met.DefectFactor < met.rangeDist w / met.DefectFactor :=
      (div_lt_div_right hd).mpr h
    exact lt_of_lt_of_le (max_lt hwpos hlt) (le_max_right 0 _)

/-- Witness for C5 at the Press vibration metric: a value beyond Max gets a
strictly positive defect factor. -/
theorem calc_defect_factor_spec_witness :
    0 < pressType.Vibration.calc_defect_factor 0.9 :=
  (calc_defect_factor_spec pressType.Vibration (by norm_num [pressType])).2.2.1 0.9
    (Or.inr (by norm_num [pressType]))

/-- C7: for every asset type, every rational inputs and every jitter in
[0.8, 1.2], calculate_defect_probability lands in [0, 1]: the upper bound by
the explicit min with 1, the lower bound because every deviation factor is
nonnegative and no explicit lower clamp is needed. -/
theorem defect_probability_in_unit_interval (ty : AssetType) (v t s j : ℚ)
    (hj1 : 0.8 ≤ j) (hj2 : j ≤ 1.2) :
    0 ≤ ty.calculate_defect_probability v t s j
      ∧ ty.calculate_defect_probability v t s j ≤ 1 := by
  unfold AssetType.calculate_defect_probability
  have h1 := calc_defect_factor_nonneg ty.Vibration v
  have h2 := calc_defect_factor_nonneg ty.Temperature t
  have h3 := calc_defect_factor_nonneg ty.Speed s
  have hsum : 0 ≤ (ty.Vibration.calc_defect_factor v * 0.4
      + ty.Temperature.calc_defect_factor t * 0.3
      + ty.Speed.calc_defect_factor s * 0.3) * j := by
    have := mul_nonneg (a := ty.Vibration.calc_defect_factor v) (b := (0.4 : ℚ))
    positivity
  exact ⟨le_min (round2_nonneg hsum) zero_le_one, min_le_right _ 1⟩

/-- Witness for C7 at Press with all readings 0 and jitter 1. -/
theorem defect_probability_in_unit_interval_witness :
    0 ≤ pressType.calculate_defect_probability 0 0 0 1
      ∧ pressType.calculate_defect_probability 0 0 0 1 ≤ 1 :=
  defect_probability_in_unit_interval pressType 0 0 0 1 (by norm_num) (by norm_num)

/-- C2 counterexample: the Humidity metric shared by every catalog entry has
Variation 0, so with variation_multiplier 1 the only possible excursion draw
is 0 and the anomalous sample equals Max exactly — not strictly outside
[Min, Max], already before the floor-at-0 clamp and the rounding. -/
theorem anomalous_sample_can_land_in_range :
    assemblyType.Humidity.anomalousValue 0 1 true = 70
    ∧ assemblyType.Humidity.calculate_random_value true 1 50 0 true = 70
    ∧ assemblyType.Humidity.Min ≤ 70 ∧ (70 : ℚ) ≤ assemblyType.Humidity.Max := by
  refine ⟨?_, ?_, by norm_num [assemblyType], by norm_num [assemblyType]⟩
  · norm_num [assemblyType, AssetMetric.anomalousValue]
  · norm_num [assemblyType, AssetMetric.calculate_random_value,
      AssetMetric.anomalousValue, round2, round_eq]

/-- C2 amended: for every MetricModel with strictly positive Variation and
every variation_multiplier m strictly positive, the anomalous value before
the floor-at-0 clamp and the 2-decimal rounding is strictly outside
[Min, Max] on both sides, and for the same underlying uniform draw e0 the
excursion scales monotonically with the multiplier. -/
theorem anomalous_raw_value_strictly_outside (met : AssetMetric) (e0 m : ℚ)
    (hV : 0 < met.Variation) (hm : 0 < m) (he : met.Variation / 2 ≤ e0) :
    (met.Max < met.anomalousValue e0 m true
      ∧ met.anomalousValue e0 m false < met.Min)
    ∧ (∀ m1 m2 : ℚ, 0 ≤ m1 → m1 ≤ m2 →
        met.anomalousValue e0 m1 true ≤ met.anomalousValue e0 m2 true
        ∧ met.anomalousValue e0 m2 false ≤ met.anomalousValue e0 m1 false) := by
  have he0 : 0 < e0 := lt_of_lt_of_le (by linarith) he
  refine ⟨⟨?_, ?_⟩, fun m1 m2 h1 h2 => ⟨?_, ?_⟩⟩
  · show met.Max < met.Max + e0 * m
    nlinarith
  · show met.Min - e0 * m < met.Min
    nlinarith
  · show met.Max + e0 * m1 ≤ met.Max + e0 * m2
    nlinarith
  · show met.Min - e0 * m2 ≤ met.Min - e0 * m1
    nlinarith

/-- Witness for the amended C2 at the Press vibration metric with the least
possible excursion draw and multiplier 1. -/
theorem anomalous_raw_value_strictly_outside_witness :
    pressType.Vibration.Max < pressType.Vibration.anomalousValue 0.04 1 true
    ∧ pressType.Vibration.anomalousValue 0.04 1 false < pressType.Vibration.Min :=
  (anomalous_raw_value_strictly_outside pressType.Vibration 0.04 1
    (by norm_num [pressType]) (by norm_num) (by norm_num [pressType])).1

/-- C6 counterexample: a metric whose Min is 0.001 — not representable in 2
decimal places — sampled non-anomalously at u = Min: the final rounding drops
the value to 0, strictly below max(0, Min), so the claimed inclusion in
[max(0, Min), Max] fails. -/
theorem normal_sample_can_leave_range :
    (⟨1/1000, 1, 0, 1⟩ : AssetMetric).calculate_random_value false 1 (1/1000) 0 true = 0
    ∧ ¬ (max 0 ((1:ℚ)/1000)
        ≤ (⟨1/1000, 1, 0, 1⟩ : AssetMetric).calculate_random_value false 1 (1/1000) 0 true) := by
  have h : (⟨1/1000, 1, 0, 1⟩ : AssetMetric).calculate_random_value false 1 (1/1000) 0 true = 0 := by
    norm_num [AssetMetric.calculate_random_value, AssetMetric.anomalousValue,
      round2, round_eq]
  refine ⟨h, ?_⟩
  rw [h]
  norm_num

/-- C6 amended: for every MetricModel whose Min and Max are integer
multiples of 0.01 and satisfy max(0, Min) ≤ Max, the non-anomalous sample of
any uniform draw u in [Min, Max] stays in [max(0, Min), Max] after the
floor-at-0 clamp and the 2-decimal rounding.  All sixteen catalog metrics
(in particular Press vibration with bounds 0.2 and 0.8) satisfy these
hypotheses. -/
theorem normal_sample_in_range (met : AssetMetric) (a b : ℤ)
    (hMin : met.Min = (a : ℚ) / 100) (hMax : met.Max = (b : ℚ) / 100)
    (hle : max 0 met.Min ≤ met.Max)
    (vm u e0 : ℚ) (hi : Bool) (hu1 : met.Min ≤ u) (hu2 : u ≤ met.Max) :
    max 0 met.Min ≤ met.calculate_random_value false vm u e0 hi
      ∧ met.calculate_random_value false vm u e0 hi ≤ met.Max := by
  have h0max : (0:ℚ) ≤ met.Max := le_trans (le_max_left 0 met.Min) hle
  have heval : met.calculate_random_value false vm u e0 hi = round2 (max 0 u) := rfl
  rw [heval]
  constructor
  · have h1 : max 0 met.Min ≤ max 0 u := max_le_max le_rfl hu1
    have h2 : round2 (max 0 met.Min) = max 0 met.Min := by
      rcases le_or_lt met.Min 0 with h | h
      · rw [max_eq_left h]
        exact round2_eq_self 0 (by norm_num)
      · rw [max_eq_right h.le]
        exact round2_eq_self a (by rw [hMin]; field_simp)
    calc max 0 met.Min = round2 (max 0 met.Min) := h2.symm
      _ ≤ round2 (max 0 u) := round2_mono h1
  · have h1 : max 0 u ≤ met.Max := max_le h0max hu2
    have h2 : round2 met.Max = met.Max := round2_eq_self b (by rw [hMax]; field_simp)
    calc round2 (max 0 u) ≤ round2 met.Max := round2_mono h1
      _ = met.Max := h2

/-- Witness for the amended C6 at the Press vibration metric (bounds 0.2 and
0.8) with a mid-range draw. -/
theorem normal_sample_in_range_witness :
    max 0 pressType.Vibration.Min
        ≤ pressType.Vibration.calculate_random_value false 1 (1/2) 0 true
      ∧ pressType.Vibration.calculate_random_value false 1 (1/2) 0 true
        ≤ pressType.Vibration.Max :=
  normal_sample_in_range pressType.Vibration 20 80
    (by norm_num [pressType]) (by norm_num [pressType])
    (by norm_num [pressType]) 1 (1/2) 0 true
    (by norm_num [pressType]) (by norm_num [pressType])

/-- C8 counterexample: the source constructors perform no invariant
validation at all: a metric definition with Min greater than Max (violating
the invariant) is constructed unchecked, and sampling on it proceeds and
returns a plain value — there is no error path at construction time or at
sample time. -/
theorem invalid_metric_constructs_and_samples :
    ¬ invalidMetric.valid
    ∧ invalidMetric.calculate_random_value false 1 (1/2) 0 true = 1/2 := by
  constructor
  · norm_num [AssetMetric.valid, invalidMetric]
  · norm_num [invalidMetric, AssetMetric.calculate_random_value,
      AssetMetric.anomalousValue, round2, round_eq]

/-- C8 amended: the source never checks the metric invariant (an invalid
definition constructs and samples without error), but every metric of the
catalog built by get_types does satisfy Min ≤ Max and nonzero
DefectFactor, so no invariant violation can arise from catalog
construction. -/
theorem catalog_metrics_satisfy_invariants :
    ∀ p ∈ AssetType.get_types,
      p.2.Vibration.valid ∧ p.2.Temperature.valid
        ∧ p.2.Humidity.valid ∧ p.2.Speed.valid := by
  intro p hp
  simp only [AssetType.get_types, List.mem_cons, List.not_mem_nil, or_false] at hp
  rcases hp with rfl | rfl | rfl | rfl <;>
    norm_num [AssetMetric.valid, assemblyType, pressType, conveyorType, packagingType]

/-- Witness for the amended C8 at the Assembly catalog entry. -/
theorem catalog_metrics_satisfy_invariants_witness :
    assemblyType.Vibration.valid ∧ assemblyType.Temperature.valid
      ∧ assemblyType.Humidity.valid ∧ assemblyType.Speed.valid :=
  catalog_metrics_satisfy_invariants ("Assembly", assemblyType)
    (List.mem_cons_self _ _)

/-- A concrete draw record for the Press type, every draw inside the support
of its distribution: the vibration metric is selected for the anomaly set by
the first coin. -/
def pressDraws : EventDraws :=
  { pickVibration := true
    pickTemperature := false
    pickHumidity := false
    pickSpeed := false
    fallback := MetricName.vibration
    uniformVibration := 0.5
    uniformTemperature := 30
    uniformHumidity := 50
    uniformSpeed := 40
    excursionVibration := 0.05
    excursionTemperature := 3
    excursionHumidity := 0
    excursionSpeed := 6
    hiVibration := true
    hiTemperature := true
    hiHumidity := true
    hiSpeed := true
    jitter := 1 }

/-- C3 counterexample: two create_random_event calls with identical arguments
and the same shared-random-source draw sequence still produce different
EventRecords, because the Id field comes from uuid4, which reads the OS
entropy pool and not the shared random source: the two calls observe two
distinct fresh uuids, so the records differ in the Id field. -/
theorem event_synthesis_not_reproducible :
    (pressType.create_random_event ("A1") ("P1") ("B1") ("T0") true 1 pressDraws ("id-a")).Id
      ≠ (pressType.create_random_event ("A1") ("P1") ("B1") ("T0") true 1 pressDraws ("id-b")).Id
    ∧ pressType.create_random_event ("A1") ("P1") ("B1") ("T0") true 1 pressDraws ("id-a")
      ≠ pressType.create_random_event ("A1") ("P1") ("B1") ("T0") true 1 pressDraws ("id-b") := by
  have hId : (pressType.create_random_event ("A1") ("P1") ("B1") ("T0") true 1 pressDraws ("id-a")).Id
      ≠ (pressType.create_random_event ("A1") ("P1") ("B1") ("T0") true 1 pressDraws ("id-b")).Id := by
    show ("id-a" : String) ≠ ("id-b")
    decide
  exact ⟨hId, fun h => hId (congrArg Event.Id h)⟩

/-- C3 amended: with a fixed shared-random-source state, two calls of
create_random_event with identical arguments produce EventRecords that agree
on every field except Id; each Id is exactly the uuid obtained from the
separate entropy source, so the Id is fresh per call rather than
reproducible. -/
theorem event_synthesis_deterministic_except_id
    (ty : AssetType) (aid pid bid ts : String) (anomaly : Bool) (vm : ℚ)
    (d : EventDraws) (id1 id2 : String) :
    (ty.create_random_event aid pid bid ts anomaly vm d id1).Id = id1
    ∧ (ty.create_random_event aid pid bid ts anomaly vm d id2).Id = id2
    ∧ (ty.create_random_event aid pid bid ts anomaly vm d id1).AssetId
        = (ty.create_random_event aid pid bid ts anomaly vm d id2).AssetId
    ∧ (ty.create_random_event aid pid bid ts anomaly vm d id1).ProductId
        = (ty.create_random_event aid pid bid ts anomaly vm d id2).ProductId
    ∧ (ty.create_random_event aid pid bid ts anomaly vm d id1).BatchId
        = (ty.create_random_event aid pid bid ts anomaly vm d id2).BatchId
    ∧ (ty.create_random_event aid pid bid ts anomaly vm d id1).Vibration
        = (ty.create_random_event aid pid bid ts anomaly vm d id2).Vibration
    ∧ (ty.create_random_event aid pid bid ts anomaly vm d id1).Temperature
        = (ty.create_random_event aid pid bid ts anomaly vm d id2).Temperature
    ∧ (ty.create_random_event aid pid bid ts anomaly vm d id1).Humidity
        = (ty.create_random_event aid pid bid ts anomaly vm d id2).Humidity
    ∧ (ty.create_random_event aid pid bid ts anomaly vm d id1).Speed
        = (ty.create_random_event aid pid bid ts anomaly vm d id2).Speed
    ∧ (ty.create_random_event aid pid bid ts anomaly vm d id1).DefectProbability
        = (ty.create_random_event aid pid bid ts anomaly vm d id2).DefectProbability
    ∧ (ty.create_random_event aid pid bid ts anomaly vm d id1).Timestamp
        = (ty.create_random_event aid pid bid ts anomaly vm d id2).Timestamp :=
  ⟨rfl, rfl, rfl, rfl, rfl, rfl, rfl, rfl, rfl, rfl, rfl⟩

/-- C10: the set of values of Asset.get_type_map equals the set of keys of
AssetType.get_types, and both are exactly the four names Assembly, Press,
Conveyor, Packaging; hence every asset name in the map resolves to a defined
asset type. -/
theorem type_map_values_are_catalog_keys :
    ∀ s : String,
      (s ∈ Asset.get_type_map.map Prod.snd ↔ s ∈ AssetType.get_types.map Prod.fst)
      ∧ (s ∈ Asset.get_type_map.map Prod.snd
          ↔ (s = "Assembly" ∨ s = "Press" ∨ s = "Conveyor" ∨ s = "Packaging")) := by
  intro s
  constructor <;> simp [Asset.get_type_map, AssetType.get_types]

/-- C9: every one of the sixteen catalog metrics satisfies Min < Max,
DefectFactor > 0 and Variation ≥ 0; the Humidity metric of every asset type
has Variation exactly 0, so an in-support anomalous humidity draw has
excursion 0 and the sampled humidity value is exactly Min or exactly Max,
never strictly outside the nominal range. -/
theorem catalog_calibration_and_humidity_boundary :
    (∀ p ∈ AssetType.get_types,
      ∀ met ∈ [p.2.Vibration, p.2.Temperature, p.2.Humidity, p.2.Speed],
        met.Min < met.Max ∧ 0 < met.DefectFactor ∧ 0 ≤ met.Variation)
    ∧ (∀ p ∈ AssetType.get_types, p.2.Humidity.Variation = 0)
    ∧ (∀ p ∈ AssetType.get_types, ∀ vm u e0 : ℚ, ∀ hi : Bool,
        p.2.Humidity.Variation / 2 ≤ e0 → e0 ≤ 3 * p.2.Humidity.Variation / 2 →
        (p.2.Humidity.calculate_random_value true vm u e0 hi = p.2.Humidity.Min
          ∨ p.2.Humidity.calculate_random_value true vm u e0 hi = p.2.Humidity.Max)) := by
  refine ⟨?_, ?_, ?_⟩
  · intro p hp met hmet
    simp only [AssetType.get_types, List.mem_cons, List.not_mem_nil, or_false] at hp
    rcases hp with rfl | rfl | rfl | rfl <;>
      simp only [List.mem_cons, List.not_mem_nil, or_false] at hmet <;>
      rcases hmet with rfl | rfl | rfl | rfl <;>
      norm_num [assemblyType, pressType, conveyorType, packagingType]
  · intro p hp
    simp only [AssetType.get_types, List.mem_cons, List.not_mem_nil, or_false] at hp
    rcases hp with rfl | rfl | rfl | rfl <;>
      norm_num [assemblyType, pressType, conveyorType, packagingType]
  · intro p hp vm u e0 hi h1 h2
    simp only [AssetType.get_types, List.mem_cons, List.not_mem_nil, or_false] at hp
    rcases hp with rfl | rfl | rfl | rfl <;>
      [skip; skip; skip; skip] <;>
    · norm_num [assemblyType, pressType, conveyorType, packagingType] at h1 h2 ⊢
      have he : e0 = 0 := le_antisymm h2 h1
      subst he
      cases hi <;>
        norm_num [AssetMetric.calculate_random_value, AssetMetric.anomalousValue,
          round2, round_eq]

/-- Witness for C9 at the Assembly catalog entry, Humidity sampled
anomalously with the only possible excursion draw 0 and the high-side coin:
the reading is exactly Min or Max. -/
theorem catalog_calibration_and_humidity_boundary_witness :
    assemblyType.Humidity.calculate_random_value true 1 50 0 true
        = assemblyType.Humidity.Min
      ∨ assemblyType.Humidity.calculate_random_value true 1 50 0 true
        = assemblyType.Humidity.Max :=
  catalog_calibration_and_humidity_boundary.2.2 ("Assembly", assemblyType)
    (List.mem_cons_self _ _) 1 50 0 true
    (by norm_num [assemblyType]) (by norm_num [assemblyType])

/-- An anomalous sample of a metric with positive Min, Min ≤ Max, an
excursion half-width exceeding the rounding granularity and an in-support
excursion draw, taken with multiplier at least 1, lands strictly outside
[Min, Max] even after the floor-at-0 clamp and the 2-decimal rounding. -/
theorem anomalous_sample_strictly_outside (met : AssetMetric) (vm u e0 : ℚ)
    (hi : Bool) (hmm : met.Min ≤ met.Max) (hpos : 0 < met.Min)
    (hV : 1 / 200 < met.Variation / 2) (he : met.Variation / 2 ≤ e0)
    (hvm : 1 ≤ vm) :
    met.calculate_random_value true vm u e0 hi < met.Min
      ∨ met.Max < met.calculate_random_value true vm u e0 hi := by
  have he0 : 1 / 200 < e0 := lt_of_lt_of_le hV he
  have hexc : 1 / 200 < e0 * vm := by nlinarith
  cases hi
  · left
    have heval : met.calculate_random_value true vm u e0 false
        = round2 (max 0 (met.Min - e0 * vm)) := rfl
    rw [heval]
    rcases le_or_lt (met.Min - e0 * vm) 0 with h | h
    · rw [max_eq_left h]
      have h0 : round2 0 = 0 := round2_eq_self 0 (by norm_num)
      rw [h0]
      exact hpos
    · rw [max_eq_right h.le]
      have := round2_le_add (met.Min - e0 * vm)
      linarith
  · right
    have heval : met.calculate_random_value true vm u e0 true
        = round2 (max 0 (met.Max + e0 * vm)) := rfl
    rw [heval]
    have hpos2 : (0:ℚ) ≤ met.Max + e0 * vm := by nlinarith
    rw [max_eq_right hpos2]
    have := sub_le_round2 (met.Max + e0 * vm)
    linarith

/-- A concrete draw record for the Press type with every draw inside the
support of its distribution, in which the independent coin flips select only
the humidity metric for the anomaly set. -/
def humidityOnlyDraws : EventDraws :=
  { pickVibration := false
    pickTemperature := false
    pickHumidity := true
    pickSpeed := false
    fallback := MetricName.vibration
    uniformVibration := 0.5
    uniformTemperature := 30
    uniformHumidity := 50
    uniformSpeed := 40
    excursionVibration := 0.05
    excursionTemperature := 3
    excursionHumidity := 0
    excursionSpeed := 6
    hiVibration := true
    hiTemperature := true
    hiHumidity := true
    hiSpeed := true
    jitter := 1 }

/-- C1 counterexample: for the Press type with anomaly requested, there is an
in-support outcome of the random draws — the coin flips select only the
humidity metric, whose Variation is 0 — for which all four readings of the
returned event lie inside their nominal ranges, so no reading is strictly
outside. -/
theorem anomalous_event_all_readings_in_range :
    humidityOnlyDraws.inSupport pressType
    ∧ ¬ pressType.eventOutOfRange
        (pressType.create_random_event ("A1") ("P1") ("B1") ("T0") true 1
          humidityOnlyDraws ("id-a")) := by
  constructor
  · norm_num [EventDraws.inSupport, humidityOnlyDraws, pressType]
  · set ev := pressType.create_random_event ("A1") ("P1") ("B1") ("T0") true 1
      humidityOnlyDraws ("id-a") with hev
    have h1 : ev.Vibration = round2 (max 0 (0.5 : ℚ)) := rfl
    have h2 : ev.Temperature = round2 (max 0 (30 : ℚ)) := rfl
    have h3 : ev.Humidity = round2 (max 0 ((70 : ℚ) + 0 * 1)) := rfl
    have h4 : ev.Speed = round2 (max 0 (40 : ℚ)) := rfl
    unfold AssetType.eventOutOfRange
    rw [h1, h2, h3, h4]
    norm_num [pressType, round2, round_eq]

/-- C1 amended: for every catalog asset type, an event created with
anomaly = true, variation_multiplier at least 1 and in-support draws has at
least one reading strictly outside its nominal range provided the selected
anomaly set contains a metric other than humidity (humidity has Variation 0
in every catalog entry, so a humidity-only anomaly set lands exactly on the
range boundary instead of strictly outside it). -/
theorem anomalous_event_has_out_of_range_reading
    (name : String) (ty : AssetType) (hmem : (name, ty) ∈ AssetType.get_types)
    (aid pid bid ts newId : String) (vm : ℚ) (d : EventDraws)
    (hvm : 1 ≤ vm) (hsupp : d.inSupport ty)
    (hsel : ∃ m ∈ selectAnomalyMetrics d.pickVibration d.pickTemperature
        d.pickHumidity d.pickSpeed d.fallback, m ≠ MetricName.humidity) :
    ty.eventOutOfRange (ty.create_random_event aid pid bid ts true vm d newId) := by
  obtain ⟨m, hm, hne⟩ := hsel
  have hcal : (0 < ty.Vibration.Min ∧ ty.Vibration.Min ≤ ty.Vibration.Max
        ∧ 1 / 200 < ty.Vibration.Variation / 2)
      ∧ (0 < ty.Temperature.Min ∧ ty.Temperature.Min ≤ ty.Temperature.Max
        ∧ 1 / 200 < ty.Temperature.Variation / 2)
      ∧ (0 < ty.Speed.Min ∧ ty.Speed.Min ≤ ty.Speed.Max
        ∧ 1 / 200 < ty.Speed.Variation / 2) := by
    simp only [AssetType.get_types, List.mem_cons, List.not_mem_nil, or_false,
      Prod.mk.injEq] at hmem
    rcases hmem with ⟨-, rfl⟩ | ⟨-, rfl⟩ | ⟨-, rfl⟩ | ⟨-, rfl⟩ <;>
      norm_num [assemblyType, pressType, conveyorType, packagingType]
  have hc : (selectAnomalyMetrics d.pickVibration d.pickTemperature
      d.pickHumidity d.pickSpeed d.fallback).contains m = true :=
    List.elem_eq_true_of_mem hm
  cases m
  case humidity => exact absurd rfl hne
  case vibration =>
    refine Or.inl ?_
    have hev : (ty.create_random_event aid pid bid ts true vm d newId).Vibration
        = ty.Vibration.calculate_random_value
            ((selectAnomalyMetrics d.pickVibration d.pickTemperature
              d.pickHumidity d.pickSpeed d.fallback).contains MetricName.vibration)
            vm d.uniformVibration d.excursionVibration d.hiVibration := rfl
    rw [hev, hc]
    exact anomalous_sample_strictly_outside ty.Vibration vm d.uniformVibration
      d.excursionVibration d.hiVibration hcal.1.2.1 hcal.1.1 hcal.1.2.2
      hsupp.2.2.2.2.1.1 hvm
  case temperature =>
    refine Or.inr (Or.inl ?_)
    have hev : (ty.create_random_event aid pid bid ts true vm d newId).Temperature
        = ty.Temperature.calculate_random_value
            ((selectAnomalyMetrics d.pickVibration d.pickTemperature
              d.pickHumidity d.pickSpeed d.fallback).contains MetricName.temperature)
            vm d.uniformTemperature d.excursionTemperature d.hiTemperature := rfl
    rw [hev, hc]
    exact anomalous_sample_strictly_outside ty.Temperature vm d.uniformTemperature
      d.excursionTemperature d.hiTemperature hcal.2.1.2.1 hcal.2.1.1 hcal.2.1.2.2
      hsupp.2.2.2.2.2.1.1 hvm
  case speed =>
    refine Or.inr (Or.inr (Or.inr ?_))
    have hev : (ty.create_random_event aid pid bid ts true vm d newId).Speed
        = ty.Speed.calculate_random_value
            ((selectAnomalyMetrics d.pickVibration d.pickTemperature
              d.pickHumidity d.pickSpeed d.fallback).contains MetricName.speed)
            vm d.uniformSpeed d.excursionSpeed d.hiSpeed := rfl
    rw [hev, hc]
    exact anomalous_sample_strictly_outside ty.Speed vm d.uniformSpeed
      d.excursionSpeed d.hiSpeed hcal.2.2.2.1 hcal.2.2.1 hcal.2.2.2.2
      hsupp.2.2.2.2.2.2.2.1.1 hvm

/-- Witness for the amended C1: Press, anomaly set selected by the coins is
exactly the vibration metric, multiplier 1, in-support draws: some reading is
strictly outside its range. -/
theorem anomalous_event_has_out_of_range_reading_witness :
    pressType.eventOutOfRange
      (pressType.create_random_event ("A1") ("P1") ("B1") ("T0") true 1
        pressDraws ("id-a")) :=
  anomalous_event_has_out_of_range_reading ("Press") pressType
    (List.mem_cons_of_mem _ (List.mem_cons_self _ _))
    ("A1") ("P1") ("B1") ("T0") ("id-a") 1 pressDraws le_rfl
    (by norm_num [EventDraws.inSupport, pressDraws, pressType])
    ⟨MetricName.vibration, List.mem_cons_self _ _, by decide⟩
